import Mathlib

/-!
Verification development for the peni.sh service (src/main.py): a shallow
embedding of the credential generator (generate_ssid_password), the image
directory cache (ImageCache) and the image retrieval handler (get_image),
together with theorems settling the specified properties.

Python strings are modelled as Lean String / List Char; the external
collaborators (the OpenAI chat call, json.loads, random.randint, the
filesystem, mimetypes.guess_type) are modelled as explicit parameters or
small executable models, as noted on each definition.
-/

/-- Characters stripped by Python str.strip (whitespace). -/
def is_py_space (c : Char) : Bool :=
  c == ' ' || c == '\t' || c == '\n' || c == '\r' || c == '\x0b' || c == '\x0c'

/-- Model of Python str.strip: remove leading and trailing whitespace. -/
def strip_chars (l : List Char) : List Char :=
  ((l.dropWhile is_py_space).reverse.dropWhile is_py_space).reverse

/-- Backtick character (written via its code point). -/
def bq : Char := Char.ofNat 96

/-- The 7-character opening markdown fence marker checked by the source:
content.startswith of three backticks followed by json. -/
def fence_open : List Char := [bq, bq, bq, 'j', 's', 'o', 'n']

/-- The 3-character closing markdown fence marker (three backticks). -/
def fence_close : List Char := [bq, bq, bq]

/-- Lines 163-170 of src/main.py: strip the raw response, drop a leading
fence marker (content[7:]) if present, drop a trailing fence marker
(content[:-3]) if present, and strip again. -/
def clean_content (l : List Char) : List Char :=
  let c1 := strip_chars l
  let c2 := if fence_open.isPrefixOf c1 then c1.drop 7 else c1
  let c3 := if fence_close.isSuffixOf c2 then c2.take (c2.length - 3) else c2
  strip_chars c3

/-- A parsed JSON object restricted to string values, as used by the source
(data["ssid"], data["password"], data.get("hint", ...)). -/
abbrev PyDict : Type := List (String × String)

/-- Python dict lookup semantics (duplicate keys: last occurrence wins).
Returns none when the key is absent, modelling both KeyError (data[k])
and dict.get defaulting. -/
def dict_get (d : PyDict) (k : String) : Option String :=
  (d.reverse.find? (fun kv => kv.1 == k)).map (fun kv => kv.2)

/-- The pydantic model SSIDPasswordPair of src/main.py (lines 49-52). -/
structure SSIDPasswordPair where
  ssid : String
  password : String
  hint : Option String
deriving DecidableEq, Repr

/-- Python exceptions that can arise inside the body of
generate_ssid_password. -/
inductive PyError where
  /-- the awaited OpenAI call raised (network, auth, ...) -/
  | transportError : PyError
  /-- json.loads raised json.JSONDecodeError -/
  | jsonDecodeError : PyError
  /-- data[k] raised KeyError for a missing key k -/
  | keyError (k : String) : PyError
  /-- fastapi.HTTPException(status_code, detail) -/
  | httpException (status : Nat) (detail : String) : PyError
deriving DecidableEq, Repr

/-- Outcome of the awaited openai chat.completions.create call: either it
raises, or it returns a message whose content is a text. -/
inductive RemoteOutcome where
  | failure : RemoteOutcome
  | success (text : String) : RemoteOutcome
deriving DecidableEq, Repr

/-- A JSON parse oracle standing for Python json.loads restricted to
string-valued objects: none models json.JSONDecodeError. -/
abbrev JsonParse : Type := List Char → Option PyDict

/-- Model of random.randint a b: a uniformly random integer in [a, b],
here driven by an explicit seed; every seed yields a value in range and
every value in range is reached by some seed. -/
def py_randint (a b seed : Nat) : Nat :=
  a + seed % (b - a + 1)

/-- The default hint used when the parsed JSON has no hint key
(line 177 of src/main.py). -/
def hint_default : String := "Derive password from SSID using the pattern"

/-- The fixed hint of the fallback pair (line 196 of src/main.py). -/
def fallback_hint : String := "Fallback mode: \x27nd\x27 + the number from SSID"

/-- Lines 188-197 of src/main.py: the deterministic fallback construction,
built from one random integer in [1000, 9999]. -/
def fallback_pair (seed : Nat) : SSIDPasswordPair :=
  let fallback_number := py_randint 1000 9999 seed
  { ssid := "NetworkDown" ++ toString fallback_number
  , password := "nd" ++ toString fallback_number
  , hint := some fallback_hint }

/-- The try body of generate_ssid_password (lines 127-183 of src/main.py):
await the remote call, clean the content, json.loads it (a syntax failure
is caught by the inner handler, logged, and re-raised as HTTPException 502),
then build the pydantic pair; a missing ssid/password key raises KeyError
out of the inner try (only json.JSONDecodeError is caught there). -/
def generate_body (o : RemoteOutcome) (parse : JsonParse) :
    Except PyError SSIDPasswordPair :=
  match o with
  | .failure => .error .transportError
  | .success text =>
    let content := clean_content text.data
    match parse content with
    | none => .error (.httpException 502 "Invalid response from AI service")
    | some data =>
      match dict_get data "ssid" with
      | none => .error (.keyError "ssid")
      | some s =>
        match dict_get data "password" with
        | none => .error (.keyError "password")
        | some p =>
          .ok { ssid := s, password := p
              , hint := some ((dict_get data "hint").getD hint_default) }

/-- Lines 125-197 of src/main.py: generate_ssid_password. The outer
except Exception handler catches every error from the body and returns the
fallback pair, so the function always returns a value (.ok). -/
def generate_ssid_password (o : RemoteOutcome) (parse : JsonParse)
    (seed : Nat) : Except PyError SSIDPasswordPair :=
  match generate_body o parse with
  | .ok pair => .ok pair
  | .error _ => .ok (fallback_pair seed)

/-- A response text wrapped in markdown code fences: a leading fence marker
and a trailing fence marker around the payload. -/
def fence_wrap (t : String) : String :=
  String.mk (fence_open ++ t.data ++ fence_close)

/-- JSON whitespace characters accepted between tokens by json.loads. -/
def is_json_ws (c : Char) : Bool :=
  c == ' ' || c == '\t' || c == '\n' || c == '\r'

/-- Skip JSON whitespace. -/
def json_skip_ws (l : List Char) : List Char := l.dropWhile is_json_ws

/-- Opening brace character (written via its code point). -/
def lbrace : Char := Char.ofNat 123

/-- Closing brace character (written via its code point). -/
def rbrace : Char := Char.ofNat 125

/-- Parse a JSON string literal without escape sequences, returning the
string and the remaining input. -/
def parse_jstring : List Char → Option (String × List Char)
  | c :: rest =>
    if c = '\"' then
      let s := rest.takeWhile (fun d => d != '\"')
      match rest.dropWhile (fun d => d != '\"') with
      | _ :: r2 => some (String.mk s, r2)
      | [] => none
    else none
  | [] => none

/-- Parse the comma-separated members of a JSON object (string keys and
string values), fuel-bounded. -/
def parse_members : Nat → List Char → Option (PyDict × List Char)
  | 0, _ => none
  | fuel + 1, l =>
    match parse_jstring (json_skip_ws l) with
    | none => none
    | some (k, r1) =>
      match json_skip_ws r1 with
      | ':' :: r2 =>
        match parse_jstring (json_skip_ws r2) with
        | none => none
        | some (v, r3) =>
          match json_skip_ws r3 with
          | ',' :: r4 =>
            match parse_members fuel r4 with
            | some (kvs, r5) => some ((k, v) :: kvs, r5)
            | none => none
          | r4 => some ([(k, v)], r4)
      | _ => none

/-- Executable model of Python json.loads restricted to the subset used by
the claims: a single flat object with string keys and string values and no
escape sequences; none models json.JSONDecodeError. -/
def json_loads_model (l : List Char) : Option PyDict :=
  match json_skip_ws l with
  | [] => none
  | c :: r =>
    if c = lbrace then
      match json_skip_ws r with
      | [] => none
      | d :: r2 =>
        if d = rbrace then
          if (json_skip_ws r2).isEmpty then some [] else none
        else
          match parse_members (r.length + 1) r with
          | none => none
          | some (kvs, rest) =>
            match json_skip_ws rest with
            | e :: r3 =>
              if e = rbrace && (json_skip_ws r3).isEmpty then some kvs
              else none
            | [] => none
    else none

/-- Model of Path.suffix of Python pathlib applied to a final path
component: the part from the last dot, empty when the dot is first or
last (hidden files, trailing dot, dotless names). -/
def py_suffix (name : List Char) : List Char :=
  match name.reverse.findIdx? (fun c => c == '.') with
  | none => []
  | some j =>
    if j = 0 then []
    else
      let i := name.length - 1 - j
      if i = 0 then [] else name.drop i

/-- Config.ALLOWED_IMAGE_TYPES of src/main.py (line 31). -/
def allowed_image_types : List String :=
  [".jpg", ".jpeg", ".png", ".gif", ".webp"]

/-- The filter condition of the scan loop (lines 106-109) and of the
extension check of get_image (line 465): suffix.lower() in
ALLOWED_IMAGE_TYPES. -/
def allowed_ext (suffix : List Char) : Bool :=
  allowed_image_types.contains (String.mk (suffix.map Char.toLower))

/-- One entry yielded by image_dir.rglob: its final name component and
whether it is a regular file (Path.is_file, which follows symlinks). -/
structure FsEntry where
  name : List Char
  isFile : Bool
deriving DecidableEq, Repr

/-- The in-memory state of ImageCache (lines 81-86 of src/main.py):
max_size, the cached path list, and the last successful scan time. -/
structure ImageCache where
  max_size : Nat
  images : List FsEntry
  last_scan : Nat
deriving DecidableEq, Repr

/-- ImageCache._scan_interval: 5 minutes (line 86). -/
def scan_interval : Nat := 300

/-- Config.MAX_CACHE_SIZE (line 32), used to build the module-level cache. -/
def config_MAX_CACHE_SIZE : Nat := 1000

/-- The module-level image_cache = ImageCache(config.MAX_CACHE_SIZE). -/
def init_image_cache : ImageCache :=
  { max_size := config_MAX_CACHE_SIZE, images := [], last_scan := 0 }

/-- Outcome of one attempt to scan the image directory: the directory does
not exist, the traversal raises, or it yields entries in traversal order. -/
inductive ScanOutcome where
  | dirMissing : ScanOutcome
  | raised : ScanOutcome
  | found (entries : List FsEntry) : ScanOutcome
deriving DecidableEq, Repr

/-- The exception escaping a failed traversal. -/
inductive ScanExn where
  | traversalError : ScanExn
deriving DecidableEq, Repr

/-- Logging level emitted by _refresh_cache on each outcome:
logger.warning for a missing directory (line 100), logger.error from the
except handler (line 117), logger.info on success (line 114). -/
inductive LogLevel where
  | warning : LogLevel
  | error : LogLevel
  | info : LogLevel
deriving DecidableEq, Repr

/-- Which log line _refresh_cache emits for each scan outcome. -/
def refresh_log_level : ScanOutcome → LogLevel
  | .dirMissing => .warning
  | .raised => .error
  | .found _ => .info

/-- The for loop of lines 104-110: keep regular files with an allowed
extension, in traversal order. -/
def scan_files : List FsEntry → List FsEntry
  | [] => []
  | e :: rest =>
    if e.isFile && allowed_ext (py_suffix e.name) then e :: scan_files rest
    else scan_files rest

/-- The try body of ImageCache._refresh_cache (lines 97-114): early return
with an emptied list when the directory is missing (last_scan untouched);
otherwise filter and truncate the entries and record the scan time; a
traversal error escapes as an exception. -/
def refresh_body (c : ImageCache) (fs : ScanOutcome) (now : Nat) :
    Except ScanExn ImageCache :=
  match fs with
  | .dirMissing => .ok { c with images := [] }
  | .raised => .error .traversalError
  | .found entries =>
    .ok { c with
          images := (scan_files entries).take c.max_size,
          last_scan := now }

/-- ImageCache._refresh_cache (lines 95-118): the except handler catches
any exception, logs it, and resets the list to empty (last_scan
untouched). -/
def refresh_cache (c : ImageCache) (fs : ScanOutcome) (now : Nat) :
    ImageCache :=
  match refresh_body c fs now with
  | .ok c2 => c2
  | .error _ => { c with images := [] }

/-- ImageCache.get_images (lines 88-93): refresh when the last scan is
older than the interval or the list is empty, then return the current
list. The Bool records whether _refresh_cache was invoked. -/
def get_images (c : ImageCache) (fs : ScanOutcome) (now : Nat) :
    List FsEntry × ImageCache × Bool :=
  if scan_interval < now - c.last_scan ∨ c.images.isEmpty = true then
    let c2 := refresh_cache c fs now
    (c2.images, c2, true)
  else (c.images, c, false)

/-- Config.IMAGE_DIR default (line 30). -/
def config_IMAGE_DIR : String := "/var/www/peni.sh/images"

/-- The response body of the /health handler. -/
structure HealthResponse where
  status : String
  image_count : Nat
  image_dir : String
deriving DecidableEq, Repr

/-- The /health handler (lines 509-517): awaits image_cache.get_images()
and reports the length of the returned list. The returned cache state and
scan flag expose the effect of that call. -/
def health_check (c : ImageCache) (fs : ScanOutcome) (now : Nat) :
    HealthResponse × ImageCache × Bool :=
  let r := get_images c fs now
  ({ status := "healthy",
     image_count := r.1.length,
     image_dir := config_IMAGE_DIR }, r.2.1, r.2.2)

/-- Split a path string on slashes, dropping empty segments, modelling the
parts of a Python PurePath (repeated and trailing slashes collapse). -/
def split_segs_go : List Char → List Char → List (List Char)
  | [], acc => [acc.reverse]
  | c :: rest, acc =>
    if c = '/' then acc.reverse :: split_segs_go rest []
    else split_segs_go rest (c :: acc)

/-- Non-empty path segments of a path string. -/
def split_py_segs (s : List Char) : List (List Char) :=
  (split_segs_go s []).filter (fun seg => ¬ seg.isEmpty)

/-- Path(IMAGE_DIR) / filename of line 455: joining with an absolute
filename replaces the root, otherwise the segments are appended. -/
def joined_path (root : List (List Char)) (filename : List Char) :
    List (List Char) :=
  if filename.head? = some '/' then split_py_segs filename
  else root ++ split_py_segs filename

/-- Lexical model of Path.resolve on the segments of an absolute path:
a dot-dot segment pops the last kept segment (the filesystem root is its
own parent), a dot segment is dropped. -/
def resolve_segs (segs : List (List Char)) : List (List Char) :=
  segs.foldl
    (fun acc seg =>
      if seg = ['.', '.'] then acc.dropLast
      else if seg = ['.'] then acc
      else acc ++ [seg])
    []

/-- The final name component of a path (empty for the filesystem root). -/
def last_seg (segs : List (List Char)) : List Char := segs.getLastD []

/-- The segments of Config.IMAGE_DIR, the default /var/www/peni.sh/images. -/
def image_dir_segs : List (List Char) :=
  split_py_segs config_IMAGE_DIR.data

/-- Path(config.IMAGE_DIR).resolve() of line 458. -/
def image_root_resolved : List (List Char) := resolve_segs image_dir_segs

/-- The path requested from the /image/{filename} handler before
resolution (line 455). -/
def image_request_path (filename : List Char) : List (List Char) :=
  joined_path image_dir_segs filename

/-- image_path.resolve() of line 458. -/
def image_request_resolved (filename : List Char) : List (List Char) :=
  resolve_segs (image_request_path filename)

/-- What the filesystem holds at a resolved path: nothing, a regular file,
or a directory (a regular file also exists in the sense of Path.exists). -/
inductive PathKind where
  | absent : PathKind
  | file : PathKind
  | dir : PathKind
deriving DecidableEq, Repr

/-- The value returned by the /image/{filename} handler: an HTTPException
with a status code and detail, or a FileResponse streaming the file with a
media type. -/
inductive GetImageResult where
  | httpError (status : Nat) (detail : String) : GetImageResult
  | fileResponse (path : List (List Char)) (mediaType : String) :
      GetImageResult
deriving DecidableEq, Repr

/-- The get_image handler (lines 451-479 of src/main.py): 403 when the
resolved path is not relative to the resolved image root, 404 when the
path is not an existing regular file, 400 when the extension is not
allowed, otherwise a FileResponse whose media type comes from
mimetypes.guess_type (modelled by the guess parameter), defaulting to
application/octet-stream. -/
def get_image (fsys : List (List Char) → PathKind)
    (guess : List (List Char) → Option String) (filename : List Char) :
    GetImageResult :=
  let image_path := image_request_path filename
  let resolved := image_request_resolved filename
  if image_root_resolved.isPrefixOf resolved = false then
    .httpError 403 "Access denied"
  else if fsys resolved ≠ PathKind.file then
    .httpError 404 "Image not found"
  else if allowed_ext (py_suffix (last_seg image_path)) = false then
    .httpError 400 "Invalid image type"
  else
    .fileResponse image_path ((guess image_path).getD "application/octet-stream")

theorem dropWhile_self_idem (p : Char → Bool) (l : List Char) :
    (l.dropWhile p).dropWhile p = l.dropWhile p := by
  induction l with
  | nil => rfl
  | cons a l ih =>
    by_cases h : p a = true
    · simp [List.dropWhile_cons, h, ih]
    · simp [List.dropWhile_cons, h]

theorem dropWhile_rev_dropWhile_rev (p : Char → Bool) (A : List Char)
    (hA : A.dropWhile p = A) :
    ((A.reverse.dropWhile p).reverse).dropWhile p
      = (A.reverse.dropWhile p).reverse := by
  cases hB : (A.reverse.dropWhile p).reverse with
  | nil => simp
  | cons b w =>
    obtain ⟨u, hu⟩ := List.dropWhile_suffix (l := A.reverse) p
    have hA2 : A = (A.reverse.dropWhile p).reverse ++ u.reverse := by
      have h1 := congrArg List.reverse hu
      simpa [List.reverse_append] using h1.symm
    rw [hB] at hA2
    have hpb : p b = false := by
      by_contra hb
      have hb' : p b = true := by simpa using hb
      have h2 : A.dropWhile p = (w ++ u.reverse).dropWhile p := by
        rw [hA2]
        simp [List.dropWhile_cons, hb']
      rw [hA] at h2
      have hlen := congrArg List.length h2
      have hle := (List.dropWhile_suffix (l := w ++ u.reverse) p).length_le
      rw [hA2] at hlen
      simp [List.length_append] at hlen hle
      omega
    simp [List.dropWhile_cons, hpb]

theorem strip_chars_idem (l : List Char) :
    strip_chars (strip_chars l) = strip_chars l := by
  have hA := dropWhile_self_idem is_py_space l
  have h1 : (strip_chars l).dropWhile is_py_space = strip_chars l :=
    dropWhile_rev_dropWhile_rev is_py_space (l.dropWhile is_py_space) hA
  show ((((strip_chars l).dropWhile is_py_space).reverse).dropWhile
          is_py_space).reverse = strip_chars l
  rw [h1]
  show ((((((l.dropWhile is_py_space).reverse).dropWhile
      is_py_space).reverse).reverse).dropWhile is_py_space).reverse
    = strip_chars l
  rw [List.reverse_reverse, dropWhile_self_idem]
  rfl

theorem isPrefixOf_append_self (l t : List Char) :
    l.isPrefixOf (l ++ t) = true := by
  induction l with
  | nil => simp [List.isPrefixOf]
  | cons a l ih => simp [List.isPrefixOf, ih]

theorem isSuffixOf_self_append (l t : List Char) :
    l.isSuffixOf (t ++ l) = true := by
  show (l.reverse.isPrefixOf (t ++ l).reverse) = true
  rw [List.reverse_append]
  exact isPrefixOf_append_self _ _

theorem strip_chars_fenced (t : List Char) :
    strip_chars (fence_open ++ t ++ fence_close)
      = fence_open ++ t ++ fence_close := by
  have hbq : is_py_space bq = false := by decide
  have h1 : (fence_open ++ t ++ fence_close).dropWhile is_py_space
      = fence_open ++ t ++ fence_close := by
    show List.dropWhile is_py_space
        (bq :: ([bq, bq, 'j', 's', 'o', 'n'] ++ t ++ fence_close))
      = bq :: ([bq, bq, 'j', 's', 'o', 'n'] ++ t ++ fence_close)
    simp [List.dropWhile_cons, hbq]
  have h2 : (fence_open ++ t ++ fence_close).reverse
      = bq :: (bq :: bq :: (t.reverse ++ fence_open.reverse)) := by
    simp [List.reverse_append, fence_close]
  have h3 : ((fence_open ++ t ++ fence_close).reverse).dropWhile is_py_space
      = (fence_open ++ t ++ fence_close).reverse := by
    rw [h2]
    simp [List.dropWhile_cons, hbq]
  show (((fence_open ++ t ++ fence_close).dropWhile
      is_py_space).reverse.dropWhile is_py_space).reverse
    = fence_open ++ t ++ fence_close
  rw [h1, h3, List.reverse_reverse]

theorem clean_content_fence_wrap (t : List Char)
    (h1 : fence_open.isPrefixOf (strip_chars t) = false)
    (h2 : fence_close.isSuffixOf (strip_chars t) = false) :
    clean_content (fence_open ++ t ++ fence_close) = clean_content t := by
  have hL : clean_content (fence_open ++ t ++ fence_close)
      = strip_chars t := by
    simp only [clean_content]
    rw [strip_chars_fenced]
    have hpre : fence_open.isPrefixOf (fence_open ++ t ++ fence_close)
        = true := by
      rw [List.append_assoc]
      exact isPrefixOf_append_self _ _
    rw [if_pos hpre]
    have hdrop : (fence_open ++ t ++ fence_close).drop 7 = t ++ fence_close := by
      rw [List.append_assoc]
      have h7 : (7 : Nat) = fence_open.length := rfl
      rw [h7, List.drop_left]
    rw [hdrop]
    have hsuf : fence_close.isSuffixOf (t ++ fence_close) = true :=
      isSuffixOf_self_append _ _
    rw [if_pos hsuf]
    have htake : (t ++ fence_close).take ((t ++ fence_close).length - 3)
        = t := by
      have hlen : (t ++ fence_close).length - 3 = t.length := by
        simp [List.length_append, fence_close]
      rw [hlen, List.take_left]
    rw [htake]
  have hR : clean_content t = strip_chars t := by
    simp only [clean_content]
    have e1 : (if fence_open.isPrefixOf (strip_chars t) = true
        then (strip_chars t).drop 7 else strip_chars t) = strip_chars t := by
      rw [h1]
      simp
    have e2 : (if fence_close.isSuffixOf (strip_chars t) = true
        then (strip_chars t).take ((strip_chars t).length - 3)
        else strip_chars t) = strip_chars t := by
      rw [h2]
      simp
    rw [e1, e2, strip_chars_idem]
  rw [hL, hR]

theorem scan_files_eq_filter (l : List FsEntry) :
    scan_files l
      = l.filter (fun e => e.isFile && allowed_ext (py_suffix e.name)) := by
  induction l with
  | nil => rfl
  | cons e l ih =>
    by_cases h : (e.isFile && allowed_ext (py_suffix e.name)) = true
    · simp [scan_files, List.filter_cons, h, ih]
    · simp [scan_files, List.filter_cons, h, ih]

theorem get_images_fst (c : ImageCache) (fs : ScanOutcome) (now : Nat) :
    (get_images c fs now).1 = ((get_images c fs now).2.1).images := by
  unfold get_images
  by_cases h : scan_interval < now - c.last_scan ∨ c.images.isEmpty = true
  · rw [if_pos h]
  · rw [if_neg h]

theorem refresh_cache_images_len (c : ImageCache) (fs : ScanOutcome)
    (now : Nat) : (refresh_cache c fs now).images.length ≤ c.max_size := by
  cases fs with
  | dirMissing => simp [refresh_cache, refresh_body]
  | raised => simp [refresh_cache, refresh_body]
  | found entries =>
    simp only [refresh_cache, refresh_body]
    exact List.length_take_le _ _

theorem refresh_cache_max_size (c : ImageCache) (fs : ScanOutcome)
    (now : Nat) : (refresh_cache c fs now).max_size = c.max_size := by
  cases fs <;> simp [refresh_cache, refresh_body]

instance : DecidableEq (Except PyError SSIDPasswordPair) := fun a b =>
  match a, b with
  | .ok x, .ok y =>
    if h : x = y then isTrue (by rw [h]) else isFalse (by simp [h])
  | .error x, .error y =>
    if h : x = y then isTrue (by rw [h]) else isFalse (by simp [h])
  | .ok _, .error _ => isFalse (by simp)
  | .error _, .ok _ => isFalse (by simp)

/-- The well-formed upstream JSON response used as an example in the
spec. -/
def spec_example_json : String :=
  "\x7b\"ssid\": \"CosmicPizza88\", \"password\": \"CP88!\", \"hint\": \"first letters+numbers+symbol\"\x7d"

/-- The object json.loads yields for spec_example_json. -/
def spec_example_data : PyDict :=
  [("ssid", "CosmicPizza88"), ("password", "CP88!"),
   ("hint", "first letters+numbers+symbol")]

/-- An upstream response text that is itself already wrapped in markdown
fences. -/
def fenced_example_json : String :=
  "\x60\x60\x60json\n\x7b\"ssid\": \"A\", \"password\": \"B\"\x7d\n\x60\x60\x60"

/-- Claim C1: for every outcome of the remote call (transport or auth
error, JSON syntax failure, or valid JSON missing a required key),
generate_ssid_password returns a pair and never raises to its caller:
every failure of the body, including the JSON-syntax path that raises the
internal 502 HTTPException, is caught and routed to the deterministic
fallback result. -/
theorem claim_C1_never_raises (o : RemoteOutcome) (parse : JsonParse)
    (seed : Nat) :
    (∃ pair, generate_ssid_password o parse seed = .ok pair)
  ∧ (∀ e, generate_body o parse = .error e →
      generate_ssid_password o parse seed = .ok (fallback_pair seed))
  ∧ (∀ t : String, parse (clean_content t.data) = none →
      generate_body (.success t) parse
        = .error (.httpException 502 "Invalid response from AI service")) := by
  refine ⟨?_, ?_, ?_⟩
  · cases h : generate_body o parse with
    | ok pair => exact ⟨pair, by simp [generate_ssid_password, h]⟩
    | error e =>
      exact ⟨fallback_pair seed, by simp [generate_ssid_password, h]⟩
  · intro e he
    simp [generate_ssid_password, he]
  · intro t ht
    simp [generate_body, ht]

/-- Witness for claim C1 at a failing remote call and at a JSON-syntax
failure. -/
theorem claim_C1_witness :
    generate_ssid_password .failure json_loads_model 7
      = .ok (fallback_pair 7)
  ∧ generate_body (.success "not json") json_loads_model
      = .error (.httpException 502 "Invalid response from AI service") :=
  ⟨(claim_C1_never_raises .failure json_loads_model 7).2.1 .transportError
      rfl,
   (claim_C1_never_raises .failure json_loads_model 7).2.2 "not json"
      (by decide)⟩

/-- Claim C2: whenever the fallback path is taken, there is one integer n
in [1000, 9999] such that the returned pair is ssid = NetworkDown followed
by n, password = nd followed by the same n, and the one fixed hint string;
moreover every n in [1000, 9999] is reachable (the draw is uniform over
the whole range). -/
theorem claim_C2_fallback_shape (o : RemoteOutcome) (parse : JsonParse)
    (seed : Nat) (e : PyError) (h : generate_body o parse = .error e) :
    (∃ n, 1000 ≤ n ∧ n ≤ 9999 ∧
        generate_ssid_password o parse seed
          = .ok { ssid := "NetworkDown" ++ toString n,
                  password := "nd" ++ toString n,
                  hint := some fallback_hint })
  ∧ (∀ m, 1000 ≤ m → m ≤ 9999 → ∃ s, py_randint 1000 9999 s = m) := by
  constructor
  · refine ⟨py_randint 1000 9999 seed, ?_, ?_, ?_⟩
    · have hdef : py_randint 1000 9999 seed = 1000 + seed % 9000 := rfl
      omega
    · have hdef : py_randint 1000 9999 seed = 1000 + seed % 9000 := rfl
      omega
    · simp [generate_ssid_password, h, fallback_pair]
  · intro m h1 h2
    refine ⟨m - 1000, ?_⟩
    show 1000 + (m - 1000) % 9000 = m
    have : (m - 1000) % 9000 = m - 1000 := Nat.mod_eq_of_lt (by omega)
    omega

/-- Witness for claim C2 at a failing remote call with seed 0. -/
theorem claim_C2_witness :
    ∃ n, 1000 ≤ n ∧ n ≤ 9999 ∧
      generate_ssid_password .failure json_loads_model 0
        = .ok { ssid := "NetworkDown" ++ toString n,
                password := "nd" ++ toString n,
                hint := some fallback_hint } :=
  (claim_C2_fallback_shape .failure json_loads_model 0 .transportError
      rfl).1

/-- Claim C3: for every upstream response whose cleaned text parses as a
JSON object containing keys ssid and password, generate_ssid_password
returns exactly those values unchanged, returns the hint value when
present, and substitutes the fixed generic string exactly when the hint
key is absent. -/
theorem claim_C3_success_fields (parse : JsonParse) (t : String)
    (seed : Nat) (data : PyDict) (s p : String)
    (hparse : parse (clean_content t.data) = some data)
    (hs : dict_get data "ssid" = some s)
    (hp : dict_get data "password" = some p) :
    generate_ssid_password (.success t) parse seed
      = .ok { ssid := s, password := p,
              hint := some ((dict_get data "hint").getD hint_default) }
  ∧ (∀ h, dict_get data "hint" = some h →
      generate_ssid_password (.success t) parse seed
        = .ok { ssid := s, password := p, hint := some h })
  ∧ (dict_get data "hint" = none →
      generate_ssid_password (.success t) parse seed
        = .ok { ssid := s, password := p, hint := some hint_default }) := by
  have hb : generate_body (.success t) parse
      = .ok { ssid := s, password := p,
              hint := some ((dict_get data "hint").getD hint_default) } := by
    simp [generate_body, hparse, hs, hp]
  refine ⟨?_, ?_, ?_⟩
  · simp [generate_ssid_password, hb]
  · intro h hh
    simp [generate_ssid_password, hb, hh]
  · intro hh
    simp [generate_ssid_password, hb, hh]

/-- Witness for claim C3 at the well-formed example response of the
spec. -/
theorem claim_C3_witness :
    generate_ssid_password (.success spec_example_json) json_loads_model 0
      = .ok { ssid := "CosmicPizza88", password := "CP88!",
              hint := some ((dict_get spec_example_data "hint").getD
                hint_default) } :=
  (claim_C3_success_fields json_loads_model spec_example_json 0
      spec_example_data "CosmicPizza88" "CP88!" (by decide) (by decide)
      (by decide)).1

/-- Counterexample to claim C4 as stated: for the response text
fenced_example_json, which itself already carries fence markers, the
wrapped and unwrapped calls disagree — the unwrapped text is stripped and
parses, while the wrapped text keeps one fence layer, fails to parse, and
falls back. -/
theorem claim_C4_counterexample :
    ¬ (∀ (parse : JsonParse) (t : String) (seed : Nat),
        generate_ssid_password (.success (fence_wrap t)) parse seed
          = generate_ssid_password (.success t) parse seed) := by
  intro h
  have h0 := h json_loads_model fenced_example_json 0
  have hA : generate_ssid_password (.success (fence_wrap
      fenced_example_json)) json_loads_model 0 = .ok (fallback_pair 0) := by
    decide
  have hB : generate_ssid_password (.success fenced_example_json)
      json_loads_model 0
      = .ok { ssid := "A", password := "B", hint := some hint_default } := by
    decide
  rw [hA, hB] at h0
  have h1 : fallback_pair 0
      = { ssid := "A", password := "B", hint := some hint_default } := by
    injection h0
  exact absurd h1 (by decide)

/-- Claim C4 (amended): for every upstream response text whose stripped
form does not itself start with the opening fence marker nor end with the
closing fence marker, wrapping it in markdown code fences gives the same
generate_ssid_password result as the unwrapped text: the fence markers
are stripped before JSON parsing. -/
theorem claim_C4_fence_stripping (parse : JsonParse) (t : String)
    (seed : Nat)
    (h1 : fence_open.isPrefixOf (strip_chars t.data) = false)
    (h2 : fence_close.isSuffixOf (strip_chars t.data) = false) :
    generate_ssid_password (.success (fence_wrap t)) parse seed
      = generate_ssid_password (.success t) parse seed := by
  have hc : clean_content (fence_wrap t).data = clean_content t.data := by
    show clean_content (fence_open ++ t.data ++ fence_close)
      = clean_content t.data
    exact clean_content_fence_wrap t.data h1 h2
  simp [generate_ssid_password, generate_body, hc]

/-- Witness for the amended claim C4 at the well-formed example
response. -/
theorem claim_C4_witness :
    generate_ssid_password (.success (fence_wrap spec_example_json))
        json_loads_model 3
      = generate_ssid_password (.success spec_example_json)
          json_loads_model 3 :=
  claim_C4_fence_stripping json_loads_model spec_example_json 3 (by decide)
    (by decide)

/-- A small concrete directory listing: an allowed image with uppercase
extension, a directory, a disallowed extension, and an allowed image. -/
def demo_entries : List FsEntry :=
  [{ name := "photo.JPG".data, isFile := true },
   { name := "subdir".data, isFile := false },
   { name := "notes.txt".data, isFile := true },
   { name := "pic.png".data, isFile := true }]

/-- A single qualifying directory entry. -/
def demo_jpg : FsEntry := { name := "photo.jpg".data, isFile := true }

/-- Claim C5: a cache refresh scan produces exactly the regular files
whose extension, lowercased, is in the allowed set, in traversal order,
truncated to the first 1000 entries; and get_images never returns or
stores more than 1000 entries when the cache honours its bound. -/
theorem claim_C5_scan_filter (c : ImageCache) (entries : List FsEntry)
    (now : Nat) (hmax : c.max_size = 1000) :
    (refresh_cache c (.found entries) now).images
      = (entries.filter
          (fun e => e.isFile && allowed_ext (py_suffix e.name))).take 1000
  ∧ (refresh_cache c (.found entries) now).images.length ≤ 1000
  ∧ (∀ fs now2, c.images.length ≤ 1000 →
        (get_images c fs now2).1.length ≤ 1000
      ∧ ((get_images c fs now2).2.1).images.length ≤ 1000) := by
  have he : (refresh_cache c (.found entries) now).images
      = (scan_files entries).take c.max_size := by
    simp [refresh_cache, refresh_body]
  refine ⟨?_, ?_, ?_⟩
  · rw [he, scan_files_eq_filter, hmax]
  · rw [he, hmax]
    exact List.length_take_le _ _
  · intro fs now2 hlen
    have hr : (refresh_cache c fs now2).images.length ≤ 1000 := by
      have hb := refresh_cache_images_len c fs now2
      rw [hmax] at hb
      exact hb
    unfold get_images
    by_cases hcond : scan_interval < now2 - c.last_scan
        ∨ c.images.isEmpty = true
    · rw [if_pos hcond]
      exact ⟨hr, hr⟩
    · rw [if_neg hcond]
      exact ⟨hlen, hlen⟩

/-- Witness for claim C5 on a concrete directory listing. -/
theorem claim_C5_witness :
    (refresh_cache init_image_cache (.found demo_entries) 5).images
      = (demo_entries.filter
          (fun e => e.isFile && allowed_ext (py_suffix e.name))).take 1000 :=
  (claim_C5_scan_filter init_image_cache demo_entries 5 rfl).1

/-- Claim C6: if the root directory does not exist, or the traversal
raises, the cache entry list is reset to empty, a warning or error is
logged, the exception is caught inside _refresh_cache, and get_images
returns the emptied list as a plain value. -/
theorem claim_C6_refresh_failure (c : ImageCache) (fs : ScanOutcome)
    (now : Nat) (h : fs = .dirMissing ∨ fs = .raised) :
    (refresh_cache c fs now).images = []
  ∧ (refresh_log_level fs = .warning ∨ refresh_log_level fs = .error)
  ∧ (∀ e, refresh_body c fs now = .error e →
      refresh_cache c fs now = { c with images := [] })
  ∧ (∀ now2, scan_interval < now2 - c.last_scan ∨ c.images.isEmpty = true →
      get_images c fs now2 = ([], refresh_cache c fs now2, true)) := by
  rcases h with h | h <;> subst h
  · refine ⟨by simp [refresh_cache, refresh_body], Or.inl rfl, ?_, ?_⟩
    · intro e he
      simp [refresh_body] at he
    · intro now2 hcond
      simp only [get_images, if_pos hcond]
      simp [refresh_cache, refresh_body]
  · refine ⟨by simp [refresh_cache, refresh_body], Or.inr rfl, ?_, ?_⟩
    · intro e he
      simp [refresh_cache, he]
    · intro now2 hcond
      simp only [get_images, if_pos hcond]
      simp [refresh_cache, refresh_body]

/-- A cache that starts empty, as the module-level cache does. -/
def empty_cache : ImageCache :=
  { max_size := 1000, images := [], last_scan := 0 }

/-- A cache holding one image whose last scan was at time 0. -/
def stale_cache : ImageCache :=
  { max_size := 1000, images := [demo_jpg], last_scan := 0 }

/-- Witness for claim C6 on a missing directory with a stale cache. -/
theorem claim_C6_witness :
    (refresh_cache stale_cache .dirMissing 400).images = []
  ∧ get_images stale_cache .dirMissing 400
      = ([], refresh_cache stale_cache .dirMissing 400, true) :=
  ⟨(claim_C6_refresh_failure stale_cache .dirMissing 400 (Or.inl rfl)).1,
   (claim_C6_refresh_failure stale_cache .dirMissing 400
      (Or.inl rfl)).2.2.2 400 (Or.inl (by decide))⟩

/-- Counterexample to claim C7 as stated: with an empty cache both calls
fall inside the refresh interval of the last scan, yet the second call
re-scans (and, when the directory becomes readable between the calls,
even returns a different list). -/
theorem claim_C7_counterexample :
    ¬ (∀ (c : ImageCache) (fs1 fs2 : ScanOutcome) (now1 now2 : Nat),
        now1 - c.last_scan ≤ scan_interval →
        now2 - ((get_images c fs1 now1).2.1).last_scan ≤ scan_interval →
        (get_images ((get_images c fs1 now1).2.1) fs2 now2).1
            = (get_images c fs1 now1).1
        ∧ (get_images ((get_images c fs1 now1).2.1) fs2 now2).2.2
            = false) := by
  intro h
  have h0 := h empty_cache .dirMissing (.found [demo_jpg]) 0 0 (by decide)
    (by decide)
  have h1 : (get_images ((get_images empty_cache .dirMissing 0).2.1)
      (.found [demo_jpg]) 0).2.2 = true := by decide
  rw [h0.2] at h1
  exact absurd h1 (by decide)

/-- Claim C7 (amended): whenever the list held after a get_images call is
non-empty, a second call within the refresh interval of the last scan
returns the identical in-memory list, leaves the cache unchanged, and
performs no re-scan. -/
theorem claim_C7_cached_read (c : ImageCache) (fs1 fs2 : ScanOutcome)
    (now1 now2 : Nat)
    (h1 : now2 - ((get_images c fs1 now1).2.1).last_scan ≤ scan_interval)
    (h2 : ((get_images c fs1 now1).2.1).images ≠ []) :
    get_images ((get_images c fs1 now1).2.1) fs2 now2
      = ((get_images c fs1 now1).1, (get_images c fs1 now1).2.1, false) := by
  rw [get_images_fst c fs1 now1]
  revert h1 h2
  generalize (get_images c fs1 now1).2.1 = c1
  intro h1 h2
  have hcond : ¬ (scan_interval < now2 - c1.last_scan
      ∨ c1.images.isEmpty = true) := by
    push_neg
    constructor
    · omega
    · simp [List.isEmpty_iff, h2]
  simp only [get_images, if_neg hcond]

/-- Witness for the amended claim C7: a fresh scan finds one image, and a
second call within the interval reuses it without re-scanning. -/
theorem claim_C7_witness :
    get_images ((get_images empty_cache (.found [demo_jpg]) 10).2.1)
        .dirMissing 20
      = ((get_images empty_cache (.found [demo_jpg]) 10).1,
         (get_images empty_cache (.found [demo_jpg]) 10).2.1, false) :=
  claim_C7_cached_read empty_cache (.found [demo_jpg]) .dirMissing 10 20
    (by decide) (by decide)

/-- Counterexample to claim C8 as stated: when the cache is empty (or
stale), the /health handler does trigger a directory scan and changes the
cache state, because it goes through get_images like every other
handler. -/
theorem claim_C8_counterexample :
    ¬ (∀ (c : ImageCache) (fs : ScanOutcome) (now : Nat),
        (health_check c fs now).1.image_count = c.images.length
        ∧ (health_check c fs now).2.1 = c
        ∧ (health_check c fs now).2.2 = false) := by
  intro h
  have h0 := (h empty_cache (.found [demo_jpg]) 0).2.2
  have h1 : (health_check empty_cache (.found [demo_jpg]) 0).2.2
      = true := by decide
  rw [h0] at h1
  exact absurd h1 (by decide)

/-- Claim C8 (amended): the /health handler reports image_count equal to
the length of the list held by the cache after its internal get_images
call; when the cache is within the refresh interval and non-empty, that
call performs no scan, the state is unchanged, and the count is the length
of the list the cache already held. -/
theorem claim_C8_health (c : ImageCache) (fs : ScanOutcome) (now : Nat)
    (h1 : now - c.last_scan ≤ scan_interval) (h2 : c.images ≠ []) :
    health_check c fs now
      = ({ status := "healthy", image_count := c.images.length,
           image_dir := config_IMAGE_DIR }, c, false)
  ∧ (health_check c fs now).1.image_count
      = ((health_check c fs now).2.1).images.length := by
  have hcond : ¬ (scan_interval < now - c.last_scan
      ∨ c.images.isEmpty = true) := by
    push_neg
    exact ⟨by omega, by simp [List.isEmpty_iff, h2]⟩
  constructor
  · simp only [health_check, get_images, if_neg hcond]
  · show (get_images c fs now).1.length
      = ((get_images c fs now).2.1).images.length
    rw [get_images_fst]

/-- Witness for the amended claim C8 on a fresh non-empty cache. -/
theorem claim_C8_witness :
    health_check stale_cache .dirMissing 100
      = ({ status := "healthy", image_count := stale_cache.images.length,
           image_dir := config_IMAGE_DIR }, stale_cache, false) :=
  (claim_C8_health stale_cache .dirMissing 100 (by decide) (by decide)).1

/-- Claim C10: the last-scan timestamp is advanced only by a scan that
completes successfully; after a failed refresh (missing root or traversal
exception) the timestamp keeps its previous value, the list is empty, and
every subsequent get_images call immediately performs another scan. -/
theorem claim_C10_timestamp (c : ImageCache) (now : Nat) :
    (∀ fs, fs = .dirMissing ∨ fs = .raised →
        (refresh_cache c fs now).last_scan = c.last_scan
      ∧ (refresh_cache c fs now).images = []
      ∧ ∀ fs2 now2,
          (get_images (refresh_cache c fs now) fs2 now2).2.2 = true)
  ∧ (∀ entries, (refresh_cache c (.found entries) now).last_scan = now) := by
  constructor
  · intro fs h
    rcases h with h | h <;> subst h
    · refine ⟨rfl, rfl, ?_⟩
      intro fs2 now2
      simp [get_images, refresh_cache, refresh_body]
    · refine ⟨rfl, rfl, ?_⟩
      intro fs2 now2
      simp [get_images, refresh_cache, refresh_body]
  · intro entries
    simp [refresh_cache, refresh_body]

/-- Witness for claim C10 after a failed traversal on a non-empty cache. -/
theorem claim_C10_witness :
    (refresh_cache stale_cache .raised 50).last_scan = stale_cache.last_scan
  ∧ (refresh_cache stale_cache .raised 50).images = []
  ∧ (get_images (refresh_cache stale_cache .raised 50) .dirMissing 50).2.2
      = true :=
  ⟨((claim_C10_timestamp stale_cache 50).1 .raised (Or.inr rfl)).1,
   ((claim_C10_timestamp stale_cache 50).1 .raised (Or.inr rfl)).2.1,
   ((claim_C10_timestamp stale_cache 50).1 .raised (Or.inr rfl)).2.2
      .dirMissing 50⟩

/-- A filesystem with nothing on it. -/
def absent_fs : List (List Char) → PathKind := fun _ => PathKind.absent

/-- A mimetypes oracle that knows no type. -/
def no_guess : List (List Char) → Option String := fun _ => none

/-- Claim C9: the image handler returns 403 whenever the resolved path
escapes the image root (never a file response), 404 when the in-root path
is not an existing regular file, 400 when the file exists but its
extension is not allowed, and otherwise serves the file with the guessed
MIME type, defaulting to application/octet-stream; the checks apply in
that order. -/
theorem claim_C9_image_handler (fsys : List (List Char) → PathKind)
    (guess : List (List Char) → Option String) (filename : List Char) :
    (image_root_resolved.isPrefixOf (image_request_resolved filename)
        = false →
        get_image fsys guess filename = .httpError 403 "Access denied"
      ∧ ∀ pth m, get_image fsys guess filename ≠ .fileResponse pth m)
  ∧ (image_root_resolved.isPrefixOf (image_request_resolved filename)
        = true →
      fsys (image_request_resolved filename) ≠ PathKind.file →
      get_image fsys guess filename = .httpError 404 "Image not found")
  ∧ (image_root_resolved.isPrefixOf (image_request_resolved filename)
        = true →
      fsys (image_request_resolved filename) = PathKind.file →
      allowed_ext (py_suffix (last_seg (image_request_path filename)))
        = false →
      get_image fsys guess filename = .httpError 400 "Invalid image type")
  ∧ (image_root_resolved.isPrefixOf (image_request_resolved filename)
        = true →
      fsys (image_request_resolved filename) = PathKind.file →
      allowed_ext (py_suffix (last_seg (image_request_path filename)))
        = true →
      get_image fsys guess filename
        = .fileResponse (image_request_path filename)
            ((guess (image_request_path filename)).getD
              "application/octet-stream")) := by
  refine ⟨?_, ?_, ?_, ?_⟩
  · intro h
    constructor
    · simp only [get_image]
      rw [if_pos h]
    · intro pth m
      simp only [get_image]
      rw [if_pos h]
      simp
  · intro h hf
    simp only [get_image]
    rw [if_neg (by simp [h]), if_pos hf]
  · intro h hf hext
    simp only [get_image]
    rw [if_neg (by simp [h]), if_neg (by simp [hf]), if_pos hext]
  · intro h hf hext
    simp only [get_image]
    rw [if_neg (by simp [h]), if_neg (by simp [hf]),
        if_neg (by simp [hext])]

/-- Witness for claim C9: a traversal request resolving outside the image
root yields 403, and a valid request on a filesystem holding the file is
served with the default binary MIME type. -/
theorem claim_C9_witness :
    get_image absent_fs no_guess "../../etc/passwd".data
      = .httpError 403 "Access denied"
  ∧ get_image (fun p => if p = image_request_resolved "pic.png".data
        then PathKind.file else PathKind.absent) no_guess "pic.png".data
      = .fileResponse (image_request_path "pic.png".data)
          "application/octet-stream" :=
  ⟨((claim_C9_image_handler absent_fs no_guess "../../etc/passwd".data).1
      (by decide)).1,
   (claim_C9_image_handler
      (fun p => if p = image_request_resolved "pic.png".data
        then PathKind.file else PathKind.absent) no_guess
      "pic.png".data).2.2.2 (by decide) (by simp) (by decide)⟩
